import Mathlib

set_option maxHeartbeats 1000000

/-! Shallow embedding of the swipenotes-api rate-limited AI-extraction
    gateway.  `Swipenotes.Shared` models `pkg/shared` (the rate-limit
    constants, `GetClientIP`, `CheckRateLimit`, `IncrementRateLimit`);
    `Swipenotes.Api` models the endpoint handler in
    `api/ai-extraction.go`.  External effects (Redis reads, the upstream
    HTTP call, JSON decoding of the inbound body) are supplied as oracle
    inputs in an environment record, and the handler's store reads,
    body parse, upstream call and ledger commit are recorded as an event
    trace in execution order. -/

namespace Swipenotes

namespace Shared

/-- `ClientRateLimitPerDay = 5` — maximum requests per client (IP) per day. -/
def ClientRateLimitPerDay : Int := 5

/-- `GlobalRateLimitPerDay = 50` — maximum total requests per day. -/
def GlobalRateLimitPerDay : Int := 50

/-- `RateLimitTTL = 24 * time.Hour`; modelled in seconds (Go stores
    nanoseconds; only the 24-hour duration matters). -/
def RateLimitTTL : Nat := 24 * 3600

/-- `AIExtractionRequest` — the decoded inbound request body. -/
structure AIExtractionRequest where
  content : String
  existingTags : List String
  existingProjects : List String
  deriving DecidableEq, Repr

/-- The request metadata the handler inspects: the HTTP method, the two
    IP headers (empty string = absent, as Go's `Header.Get` returns `""`),
    the connection remote address, and the outcome of JSON-decoding the
    body (`none` = decode error, mirroring `json.Decoder.Decode`). -/
structure HttpRequest where
  method : String
  xForwardedFor : String
  xRealIP : String
  remoteAddr : String
  decodeBody : Option AIExtractionRequest
  deriving DecidableEq, Repr

/-- Index of the last `:` in a character list — `strings.LastIndex(ip, ":")`.
    Indices are character positions; Go's are byte positions, which
    coincide on ASCII input. -/
def lastIndexOfColon : List Char → Option Nat
  | [] => none
  | c :: cs =>
    match lastIndexOfColon cs with
    | some i => some (i + 1)
    | none => if c = ':' then some 0 else none

/-- `GetClientIP` (pkg/shared/redis.go, lines 62-84): X-Forwarded-For
    first entry trimmed, else X-Real-IP, else RemoteAddr truncated at the
    last colon when one is present. -/
def GetClientIP (r : HttpRequest) : String :=
  let xff := r.xForwardedFor
  if xff ≠ "" then
    let parts := xff.splitOn ","
    (parts.headD "").trim
  else
    let xri := r.xRealIP
    if xri ≠ "" then xri
    else
      let ip := r.remoteAddr
      match lastIndexOfColon ip.toList with
      | some colonIdx => (ip.toList.take colonIdx).asString
      | none => ip

/-- Modelled from the spec: the claim's reading of the RemoteAddr
    fallback — "the connection remote address with any trailing port
    suffix stripped ... a malformed connection address is returned
    as-is".  The suffix after the last colon is removed only when it is
    a genuine port (one or more decimal digits); anything else is
    returned unchanged.  Used only to compare against `GetClientIP`. -/
def stripPortClaimed (ip : String) : String :=
  match lastIndexOfColon ip.toList with
  | some i =>
    if (ip.toList.drop (i + 1)) ≠ [] ∧ (ip.toList.drop (i + 1)).all (fun ch => ch.isDigit) then
      (ip.toList.take i).asString
    else ip
  | none => ip

/-- Outcome of `client.Get(ctx, key).Int64()`: a stored integer, the
    missing-key sentinel `redis.Nil`, or any other error. -/
inductive RedisRead where
  | val : Int → RedisRead
  | nil : RedisRead
  | err : RedisRead
  deriving DecidableEq, Repr

/-- The count the Go code keeps after a read: on `redis.Nil` the zero
    value `0` is used (the `err != redis.Nil` guard falls through); any
    other error propagates. -/
def readCount : RedisRead → Except Unit Int
  | .val n => .ok n
  | .nil => .ok 0
  | .err => .error ()

/-- `CheckRateLimit` (pkg/shared/redis.go, lines 93-118), with the two
    Redis reads for the client-scope and global-scope daily keys supplied
    as oracle inputs.  Returns `(allowed, clientCount, globalCount)` or
    an error when either read fails with a non-`redis.Nil` error. -/
def CheckRateLimit (clientRead globalRead : RedisRead) :
    Except Unit (Bool × Int × Int) :=
  match readCount clientRead with
  | .error e => .error e
  | .ok clientCount =>
    match readCount globalRead with
    | .error e => .error e
    | .ok globalCount =>
      if clientCount ≥ ClientRateLimitPerDay then
        .ok (false, clientCount, globalCount)
      else if globalCount ≥ GlobalRateLimitPerDay then
        .ok (false, clientCount, globalCount)
      else
        .ok (true, clientCount, globalCount)

/-- The counter store: per-key integer counts and per-key absolute expiry
    instants (seconds). -/
structure Store where
  count : String → Option Int
  expireAt : String → Option Nat

/-- Redis `INCR`: create at 1 when missing, else add 1. -/
def storeIncr (s : Store) (k : String) : Store :=
  { s with count := fun k2 => if k2 = k then some ((s.count k).getD 0 + 1) else s.count k2 }

/-- Redis `EXPIRE key ttl` issued right after an `INCR` of the same key
    (so the key exists): sets the absolute expiry instant. -/
def storeExpire (s : Store) (k : String) (t : Nat) : Store :=
  { s with expireAt := fun k2 => if k2 = k then some t else s.expireAt k2 }

/-- `fmt.Sprintf("ratelimit:client:%s:%s", clientIP, today)`. -/
def clientKeyOf (clientIP today : String) : String :=
  "ratelimit:client:" ++ clientIP ++ ":" ++ today

/-- `fmt.Sprintf("ratelimit:global:%s", today)`. -/
def globalKeyOf (today : String) : String :=
  "ratelimit:global:" ++ today

/-- `IncrementRateLimit` (pkg/shared/redis.go, lines 121-138): the
    pipelined `INCR clientKey; EXPIRE clientKey 24h; INCR globalKey;
    EXPIRE globalKey 24h`, applied to the store at instant `now`. -/
def IncrementRateLimit (s : Store) (clientIP today : String) (now : Nat) : Store :=
  let clientKey := clientKeyOf clientIP today
  let globalKey := globalKeyOf today
  storeExpire
    (storeIncr
      (storeExpire (storeIncr s clientKey) clientKey (now + RateLimitTTL))
      globalKey)
    globalKey (now + RateLimitTTL)

end Shared

namespace Api

open Shared

/-- The body of an emitted HTTP response: an `ErrorResponse{Error: msg}`
    JSON object, the normalized provider-unavailable map with its
    `message` and `status` fields, or raw forwarded bytes. -/
inductive RespBody where
  | errorJson : String → RespBody
  | messageStatus : String → String → RespBody
  | raw : String → RespBody
  deriving DecidableEq, Repr

/-- An emitted HTTP response: status code, headers in the order they are
    set, and body. -/
structure Response where
  status : Nat
  headers : List (String × String)
  body : RespBody
  deriving DecidableEq, Repr

/-- The `error` object of the upstream error envelope
    (`geminiErr.Error`): numeric code, message, status token. -/
structure GeminiError where
  code : Int
  message : String
  status : String
  deriving DecidableEq, Repr

/-- An upstream response body: its raw bytes plus the outcome of
    `json.Unmarshal` into the error-envelope struct (`none` = parse
    error; a valid JSON object lacking the fields yields the zero value
    `some ⟨0, "", ""⟩`). -/
structure UpBody where
  raw : String
  envelope : Option GeminiError
  deriving DecidableEq, Repr

/-- Outcome of `client.Do` + `io.ReadAll`: transport failure before any
    status, or a status with the body read attempt (`none` = ReadAll
    failed). -/
inductive UpstreamResult where
  | transportErr : UpstreamResult
  | response : Nat → Option UpBody → UpstreamResult
  deriving DecidableEq, Repr

/-- Observable side-effecting steps of the handler, in execution order:
    the rate-limit store read, the body parse, the upstream HTTP call,
    and the ledger commit (store write). -/
inductive Event where
  | checkLimits : Event
  | parseBody : Event
  | upstreamCall : Event
  | incrLimits : Event
  deriving DecidableEq, Repr

/-- The handler's environment: outcomes of every external interaction,
    plus the counter store state and clock used by the ledger commit. -/
structure Env where
  redisOk : Bool
  clientRead : RedisRead
  globalRead : RedisRead
  marshalOk : Bool
  armyAccessKey : String
  newRequestOk : Bool
  upstream : UpstreamResult
  incrementOk : Bool
  store : Store
  today : String
  now : Nat

/-- The handler's result: the response written, the event trace, and the
    final counter-store state. -/
structure HandlerResult where
  resp : Response
  trace : List Event
  store : Store

/-- A `w.Header().Set("Content-Type", ...); w.WriteHeader(status);
    json.NewEncoder(w).Encode(ErrorResponse{Error: msg})` sequence. -/
def errorResponse (status : Nat) (msg : String) : Response :=
  { status := status
    headers := [("Content-Type", "application/json")]
    body := .errorJson msg }

/-- `validateMethod` (ai-extraction.go, lines 58-66): `some resp` is the
    405 it writes; `none` means continue. -/
def validateMethod (r : HttpRequest) : Option Response :=
  if r.method ≠ "POST" then some (errorResponse 405 "Method not allowed")
  else none

/-- `getRedisClient` (ai-extraction.go, lines 68-78): `some resp` is the
    500 written when `shared.GetRedisClient` fails. -/
def getRedisClient (env : Env) : Option Response :=
  if env.redisOk then none
  else some (errorResponse 500 "Internal server error")

/-- The 429 written by `checkRateLimits` (ai-extraction.go, lines
    91-104): three rate-limit headers and the scope-specific message,
    client scope first. -/
def rateLimitResponse (clientCount : Int) : Response :=
  { status := 429
    headers := [("Content-Type", "application/json"),
      ("X-RateLimit-Client-Limit", toString ClientRateLimitPerDay),
      ("X-RateLimit-Client-Remaining", "0"),
      ("X-RateLimit-Global-Limit", toString GlobalRateLimitPerDay)]
    body := .errorJson
      (if clientCount ≥ ClientRateLimitPerDay then
        "Client rate limit exceeded. Maximum 5 requests per day."
      else
        "Global rate limit exceeded. Please try again later.") }

/-- `checkRateLimits` (ai-extraction.go, lines 80-107): `.error resp` is
    the 500 (read error) or 429 (not allowed) it writes; `.ok (c, g)`
    means admitted with the two counts. -/
def checkRateLimits (env : Env) : Except Response (Int × Int) :=
  match CheckRateLimit env.clientRead env.globalRead with
  | .error _ => .error (errorResponse 500 "Internal server error")
  | .ok (allowed, clientCount, globalCount) =>
    if !allowed then .error (rateLimitResponse clientCount)
    else .ok (clientCount, globalCount)

/-- `parseRequest` (ai-extraction.go, lines 109-125): 400 on decode
    error, 400 on empty content, else the decoded request. -/
def parseRequest (r : HttpRequest) : Except Response AIExtractionRequest :=
  match r.decodeBody with
  | none => .error (errorResponse 400 "Invalid request body")
  | some req =>
    if req.content = "" then .error (errorResponse 400 "Content is required")
    else .ok req

/-- `createGeminiPayload` (ai-extraction.go, lines 127-139):
    `json.Marshal` outcome is the oracle `env.marshalOk` (it cannot
    actually fail on this struct, but the error branch is modelled). -/
def createGeminiPayload (env : Env) : Except Response Unit :=
  if env.marshalOk then .ok ()
  else .error (errorResponse 500 "Failed to create request")

/-- `executeGeminiCall` (ai-extraction.go, lines 141-181).  The `Bool`
    paired with an error response records whether `client.Do` was
    reached (so an upstream call was made). -/
def executeGeminiCall (env : Env) : Except (Response × Bool) (Nat × UpBody) :=
  if env.armyAccessKey = "" then
    .error (errorResponse 500 "Server configuration error", false)
  else if !env.newRequestOk then
    .error (errorResponse 500 "Failed to create request", false)
  else
    match env.upstream with
    | .transportErr => .error (errorResponse 502 "Failed to call AI service", true)
    | .response _ none => .error (errorResponse 500 "Failed to read AI response", true)
    | .response status (some b) => .ok (status, b)

/-- The normalized 503 written for the classified provider-unavailable
    case (ai-extraction.go, lines 200-206). -/
def providerUnavailableResponse : Response :=
  { status := 503
    headers := [("Content-Type", "application/json")]
    body := .messageStatus
      "Our AI provider upstream is currently unavailable. Please try again in a couple minutes."
      "provider_unavailable" }

/-- The pass-through fallback: original upstream status and body
    forwarded unchanged (ai-extraction.go, lines 212-215). -/
def passthroughResponse (status : Nat) (body : String) : Response :=
  { status := status
    headers := [("Content-Type", "application/json")]
    body := .raw body }

/-- `handleGeminiResponse` (ai-extraction.go, lines 183-217): `none`
    means status 200, proceed; `some resp` is the terminal response
    (normalized 503 or pass-through). -/
def handleGeminiResponse (status : Nat) (body : UpBody) : Option Response :=
  if status = 200 then none
  else
    match body.envelope with
    | some e =>
      if e.code = 503 ∧ e.status = "UNAVAILABLE" then
        some providerUnavailableResponse
      else
        some (passthroughResponse status body.raw)
    | none => some (passthroughResponse status body.raw)

/-- `incrementLimits` (ai-extraction.go, lines 219-224): applies the
    pipelined increment when it succeeds; on failure the error is only
    logged and the store is unchanged. -/
def incrementLimits (env : Env) (clientIP : String) : Store :=
  if env.incrementOk then IncrementRateLimit env.store clientIP env.today env.now
  else env.store

/-- `writeSuccessResponse` (ai-extraction.go, lines 226-234): the 200
    with all four rate-limit headers and the upstream body verbatim. -/
def writeSuccessResponse (body : String) (clientCount globalCount : Int) : Response :=
  { status := 200
    headers := [("Content-Type", "application/json"),
      ("X-RateLimit-Client-Limit", toString ClientRateLimitPerDay),
      ("X-RateLimit-Client-Remaining", toString (ClientRateLimitPerDay - clientCount - 1)),
      ("X-RateLimit-Global-Limit", toString GlobalRateLimitPerDay),
      ("X-RateLimit-Global-Remaining", toString (GlobalRateLimitPerDay - globalCount - 1))]
    body := .raw body }

/-- `Handler` (ai-extraction.go, lines 18-56): the endpoint's control
    flow, with each helper's written response as the early exit and the
    event trace recorded in execution order. -/
def Handler (r : HttpRequest) (env : Env) : HandlerResult :=
  match validateMethod r with
  | some resp => ⟨resp, [], env.store⟩
  | none =>
    match getRedisClient env with
    | some resp => ⟨resp, [], env.store⟩
    | none =>
      match checkRateLimits env with
      | .error resp => ⟨resp, [.checkLimits], env.store⟩
      | .ok (clientCount, globalCount) =>
        match parseRequest r with
        | .error resp => ⟨resp, [.checkLimits, .parseBody], env.store⟩
        | .ok _req =>
          match createGeminiPayload env with
          | .error resp => ⟨resp, [.checkLimits, .parseBody], env.store⟩
          | .ok _ =>
            match executeGeminiCall env with
            | .error (resp, called) =>
              ⟨resp, [.checkLimits, .parseBody] ++ (if called then [.upstreamCall] else []), env.store⟩
            | .ok (status, body) =>
              match handleGeminiResponse status body with
              | some resp => ⟨resp, [.checkLimits, .parseBody, .upstreamCall], env.store⟩
              | none =>
                ⟨writeSuccessResponse body.raw clientCount globalCount,
                  [.checkLimits, .parseBody, .upstreamCall, .incrLimits],
                  incrementLimits env (GetClientIP r)⟩

end Api

namespace Inputs

open Shared Api

/-- A store with no keys. -/
def emptyStore : Store := ⟨fun _ => none, fun _ => none⟩

/-- A successful upstream body with no error envelope. -/
def okBody : UpBody := ⟨"result", none⟩

/-- An environment in which every external interaction succeeds and both
    counters read 0. -/
def envSuccess : Env :=
  { redisOk := true, clientRead := .val 0, globalRead := .val 0
    marshalOk := true, armyAccessKey := "key", newRequestOk := true
    upstream := .response 200 (some okBody), incrementOk := true
    store := emptyStore, today := "2026-10-11", now := 0 }

/-- A well-formed POST request with a non-empty content field. -/
def reqValid : HttpRequest :=
  { method := "POST", xForwardedFor := "", xRealIP := ""
    remoteAddr := "10.0.0.1:443"
    decodeBody := some ⟨"note text", [], []⟩ }

/-- A POST request whose body fails to decode. -/
def reqBadBody : HttpRequest :=
  { method := "POST", xForwardedFor := "", xRealIP := ""
    remoteAddr := "10.0.0.1:443", decodeBody := none }

/-- An environment whose client counter reads 5 (client limit reached). -/
def envClientLimited : Env :=
  { envSuccess with clientRead := .val 5 }

/-- An environment whose client counter read fails with a
    non-missing-key error. -/
def envStoreErr : Env :=
  { envSuccess with clientRead := .err }

/-- An upstream error body parsing to code 503, status UNAVAILABLE. -/
def bodyUnavailable : UpBody := ⟨"errbody", some ⟨503, "overloaded", "UNAVAILABLE"⟩⟩

/-- An environment whose upstream returns 503 with the unavailable
    envelope. -/
def envProvider503 : Env :=
  { envSuccess with upstream := .response 503 (some bodyUnavailable) }

/-- An environment whose upstream returns 500 with an unparseable body. -/
def envPassthrough : Env :=
  { envSuccess with upstream := .response 500 (some ⟨"boom", none⟩) }

/-- A successful environment whose ledger commit fails. -/
def envIncrFail : Env :=
  { envSuccess with incrementOk := false }

/-- An environment whose upstream returns 200 but reading the response
    body fails. -/
def envReadFail : Env :=
  { envSuccess with upstream := .response 200 none }

/-- A request with no forwarding headers and a malformed connection
    address containing a colon whose suffix is not a port. -/
def reqMalformedAddr : HttpRequest :=
  { method := "POST", xForwardedFor := "", xRealIP := ""
    remoteAddr := "abc:def"
    decodeBody := some ⟨"note text", [], []⟩ }

/-- The store after a first commit for client 1.2.3.4 at instant 100. -/
def storeAfterFirst : Store :=
  IncrementRateLimit emptyStore "1.2.3.4" "2026-10-11" 100

/-- The store after a second commit for the same client at instant 5000. -/
def storeAfterSecond : Store :=
  IncrementRateLimit storeAfterFirst "1.2.3.4" "2026-10-11" 5000

end Inputs

namespace Shared

theorem lastIndexOfColon_of_not_mem {l : List Char} (h : ':' ∉ l) :
    lastIndexOfColon l = none := by
  induction l with
  | nil => rfl
  | cons c cs ih =>
    rw [List.mem_cons, not_or] at h
    unfold lastIndexOfColon
    rw [ih h.2, if_neg (Ne.symm h.1)]

theorem lastIndexOfColon_append {l1 l2 : List Char} (h : ':' ∉ l2) :
    lastIndexOfColon (l1 ++ ':' :: l2) = some l1.length := by
  induction l1 with
  | nil =>
    simp only [List.nil_append]
    unfold lastIndexOfColon
    rw [lastIndexOfColon_of_not_mem h]
    simp
  | cons c cs ih =>
    simp only [List.cons_append]
    unfold lastIndexOfColon
    rw [ih]
    simp

end Shared

namespace Api

open Shared

theorem parseRequest_ok {r : HttpRequest} {req : AIExtractionRequest}
    (h : parseRequest r = .ok req) :
    r.decodeBody = some req ∧ req.content ≠ "" := by
  unfold parseRequest at h
  rcases hd : r.decodeBody with _ | q <;> rw [hd] at h
  · simp at h
  · by_cases hq : q.content = "" <;> simp [hq] at h
    subst h
    exact ⟨rfl, hq⟩

theorem executeGeminiCall_ok {env : Env} {s : Nat} {b : UpBody}
    (h : executeGeminiCall env = .ok (s, b)) :
    env.upstream = .response s (some b) := by
  unfold executeGeminiCall at h
  split at h
  · simp at h
  · split at h
    · simp at h
    · rcases hu : env.upstream with _ | ⟨st, ob⟩ <;> simp only [hu] at h
      · simp at h
      · rcases ob with _ | b2
        · simp at h
        · simp at h
          rw [h.1, h.2]

theorem handleGeminiResponse_none {s : Nat} {b : UpBody}
    (h : handleGeminiResponse s b = none) : s = 200 := by
  by_cases hs : s = 200
  · exact hs
  · exfalso
    unfold handleGeminiResponse at h
    rw [if_neg hs] at h
    rcases he : b.envelope with _ | e <;> simp only [he] at h
    · exact Option.noConfusion h
    · split at h <;> exact Option.noConfusion h

/-- Inversion of the success path: a ledger commit in the trace forces
    every earlier stage to have succeeded with an upstream 200. -/
theorem handler_incr_inv (r : HttpRequest) (env : Env)
    (h : Event.incrLimits ∈ (Handler r env).trace) :
    ∃ (c g : Int) (req : AIExtractionRequest) (b : UpBody),
      checkRateLimits env = .ok (c, g) ∧
      r.decodeBody = some req ∧ req.content ≠ "" ∧
      env.upstream = .response 200 (some b) ∧
      Handler r env =
        ⟨writeSuccessResponse b.raw c g,
          [Event.checkLimits, Event.parseBody, Event.upstreamCall, Event.incrLimits],
          incrementLimits env (GetClientIP r)⟩ := by
  unfold Handler at h ⊢
  rcases hv : validateMethod r with _ | resp <;> simp only [hv] at h ⊢
  · rcases hg0 : getRedisClient env with _ | resp <;> simp only [hg0] at h ⊢
    · rcases hcr : checkRateLimits env with resp | ⟨c, g⟩ <;> simp only [hcr] at h ⊢
      · simp at h
      · rcases hpr : parseRequest r with resp | req <;> simp only [hpr] at h ⊢
        · simp at h
        · rcases hcp : createGeminiPayload env with resp | u <;> simp only [hcp] at h ⊢
          · simp at h
          · rcases hec : executeGeminiCall env with ⟨resp, called⟩ | ⟨status, body⟩ <;>
              simp only [hec] at h ⊢
            · cases called <;> simp at h
            · rcases hh : handleGeminiResponse status body with _ | resp <;>
                simp only [hh] at h ⊢
              · have hs := handleGeminiResponse_none hh
                have hu := executeGeminiCall_ok hec
                have hp := parseRequest_ok hpr
                subst hs
                exact ⟨c, g, req, body, rfl, hp.1, hp.2, hu, rfl⟩
              · simp at h
    · simp at h
  · simp at h

/-- Forward evaluation: an admitted-check that returns not-allowed makes
    the handler stop with the 429 from `checkRateLimits`. -/
theorem handler_not_allowed (r : HttpRequest) (env : Env) (c g : Int)
    (hm : r.method = "POST") (hredis : env.redisOk = true)
    (hcr : CheckRateLimit env.clientRead env.globalRead = .ok (false, c, g)) :
    Handler r env = ⟨rateLimitResponse c, [Event.checkLimits], env.store⟩ := by
  unfold Handler validateMethod getRedisClient checkRateLimits
  simp [hm, hredis, hcr]

/-- Forward evaluation: a failed counter read makes the handler stop
    with the 500 from `checkRateLimits`. -/
theorem handler_store_err (r : HttpRequest) (env : Env)
    (hm : r.method = "POST") (hredis : env.redisOk = true)
    (hcr : CheckRateLimit env.clientRead env.globalRead = .error ()) :
    Handler r env =
      ⟨errorResponse 500 "Internal server error", [Event.checkLimits], env.store⟩ := by
  unfold Handler validateMethod getRedisClient checkRateLimits
  simp [hm, hredis, hcr]

/-- A read error on either counter makes `CheckRateLimit` fail. -/
theorem checkRateLimit_err {env : Env}
    (herr : env.clientRead = RedisRead.err ∨ env.globalRead = RedisRead.err) :
    CheckRateLimit env.clientRead env.globalRead = .error () := by
  unfold CheckRateLimit
  rcases herr with he | he
  · rw [he]
    rfl
  · rw [he]
    rcases hr : readCount env.clientRead with u | v <;> simp only [hr] <;> rfl

/-- Forward evaluation: when the method, store, body, payload and
    configuration stages all succeed, the handler's outcome is decided
    entirely by the upstream result. -/
theorem handler_at_upstream (r : HttpRequest) (env : Env) (c g : Int)
    (req : AIExtractionRequest)
    (hm : r.method = "POST") (hredis : env.redisOk = true)
    (hrc : env.clientRead = .val c) (hrg : env.globalRead = .val g)
    (hc : c < ClientRateLimitPerDay) (hg : g < GlobalRateLimitPerDay)
    (hdec : r.decodeBody = some req) (hcont : req.content ≠ "")
    (hmar : env.marshalOk = true) (hkey : env.armyAccessKey ≠ "")
    (hnr : env.newRequestOk = true) :
    Handler r env =
      match env.upstream with
      | .transportErr =>
        ⟨errorResponse 502 "Failed to call AI service",
          [Event.checkLimits, Event.parseBody, Event.upstreamCall], env.store⟩
      | .response _ none =>
        ⟨errorResponse 500 "Failed to read AI response",
          [Event.checkLimits, Event.parseBody, Event.upstreamCall], env.store⟩
      | .response status (some b) =>
        match handleGeminiResponse status b with
        | some resp =>
          ⟨resp, [Event.checkLimits, Event.parseBody, Event.upstreamCall], env.store⟩
        | none =>
          ⟨writeSuccessResponse b.raw c g,
            [Event.checkLimits, Event.parseBody, Event.upstreamCall, Event.incrLimits],
            incrementLimits env (GetClientIP r)⟩ := by
  unfold Handler validateMethod getRedisClient checkRateLimits CheckRateLimit
  simp only [readCount, parseRequest, createGeminiPayload, executeGeminiCall, hm, hredis,
    hrc, hrg, hdec, hmar, hnr, hcont, hkey, not_le.mpr hc, not_le.mpr hg]
  simp only [reduceIte, Bool.not_true, Bool.false_eq_true, reduceCtorEq, ite_false, ite_true]
  rcases hu : env.upstream with _ | ⟨s, ob⟩
  · simp
  · rcases ob with _ | b
    · simp
    · rcases hh : handleGeminiResponse s b with _ | resp <;> simp [hh]

end Api

open Shared Api Inputs

/-- Claim C1: the ledger commit (counter increment) is executed only
    after a confirmed-successful (HTTP 200) upstream response with a
    readable body has been obtained, as the last step before the success
    response; a request that fails validation, is not admitted, or
    receives any non-success upstream outcome never increments. -/
theorem c1_increment_only_after_success (r : HttpRequest) (env : Env)
    (h : Event.incrLimits ∈ (Handler r env).trace) :
    ∃ b : UpBody, env.upstream = .response 200 (some b) ∧
      (Handler r env).resp.status = 200 ∧
      (Handler r env).trace =
        [Event.checkLimits, Event.parseBody, Event.upstreamCall, Event.incrLimits] := by
  obtain ⟨c, g, req, b, _, _, _, hu, hH⟩ := handler_incr_inv r env h
  exact ⟨b, hu, by rw [hH]; rfl, by rw [hH]⟩

/-- Witness for C1 at a concrete successful request. -/
theorem c1_witness :
    ∃ b : UpBody, envSuccess.upstream = .response 200 (some b) ∧
      (Handler reqValid envSuccess).resp.status = 200 ∧
      (Handler reqValid envSuccess).trace =
        [Event.checkLimits, Event.parseBody, Event.upstreamCall, Event.incrLimits] :=
  c1_increment_only_after_success reqValid envSuccess (by decide)

/-- Claim C2: with both counter reads succeeding (a missing key read as
    count 0), the check admits iff clientCount < 5 and globalCount < 50;
    a non-admitted request gets a 429 whose body is the
    client-limit-exceeded message iff clientCount ≥ 5 (so the client
    limit wins the tie-break), and the global-limit message otherwise. -/
theorem c2_admission_and_message (c g : Int) (rc rg : RedisRead)
    (hc : readCount rc = .ok c) (hgr : readCount rg = .ok g)
    (r : HttpRequest) (env : Env)
    (hm : r.method = "POST") (hredis : env.redisOk = true)
    (henvc : env.clientRead = rc) (henvg : env.globalRead = rg) :
    (c < ClientRateLimitPerDay ∧ g < GlobalRateLimitPerDay →
      CheckRateLimit rc rg = .ok (true, c, g)) ∧
    (¬(c < ClientRateLimitPerDay ∧ g < GlobalRateLimitPerDay) →
      CheckRateLimit rc rg = .ok (false, c, g) ∧
      (Handler r env).resp.status = 429 ∧
      ((Handler r env).resp.body =
          .errorJson "Client rate limit exceeded. Maximum 5 requests per day." ↔
        ClientRateLimitPerDay ≤ c) ∧
      ((Handler r env).resp.body =
          .errorJson "Global rate limit exceeded. Please try again later." ↔
        c < ClientRateLimitPerDay)) ∧
    readCount RedisRead.nil = .ok 0 := by
  refine ⟨?_, ?_, rfl⟩
  · intro ⟨h1, h2⟩
    unfold CheckRateLimit
    simp only [hc, hgr]
    rw [if_neg (not_le.mpr h1), if_neg (not_le.mpr h2)]
  · intro hnot
    have hfalse : CheckRateLimit rc rg = .ok (false, c, g) := by
      unfold CheckRateLimit
      simp only [hc, hgr]
      by_cases h1 : ClientRateLimitPerDay ≤ c
      · rw [if_pos h1]
      · have hcl : c < ClientRateLimitPerDay := not_le.mp h1
        have h2 : GlobalRateLimitPerDay ≤ g := by
          by_contra hgg
          exact hnot ⟨hcl, not_le.mp hgg⟩
        rw [if_neg h1, if_pos h2]
    have hH := handler_not_allowed r env c g hm hredis (by rw [henvc, henvg]; exact hfalse)
    refine ⟨hfalse, by rw [hH]; rfl, ?_, ?_⟩
    · rw [hH]
      by_cases h1 : ClientRateLimitPerDay ≤ c
      · simp [rateLimitResponse, h1]
      · simp only [rateLimitResponse, if_neg h1]
        constructor
        · intro hx
          injection hx with hx2
          exact absurd hx2 (by decide)
        · intro hx
          exact absurd hx h1
    · rw [hH]
      by_cases h1 : ClientRateLimitPerDay ≤ c
      · simp only [rateLimitResponse, if_pos h1]
        constructor
        · intro hx
          injection hx with hx2
          exact absurd hx2 (by decide)
        · intro hx
          exact absurd h1 (not_le.mpr hx)
      · simp [rateLimitResponse, h1, not_le.mp h1]

/-- Witness for C2: client count 5 and global count 0 is rejected with
    the client-limit message and a 429. -/
theorem c2_witness :
    CheckRateLimit (RedisRead.val 5) (RedisRead.val 0) = .ok (false, 5, 0) ∧
    (Handler reqValid envClientLimited).resp.status = 429 ∧
    (Handler reqValid envClientLimited).resp.body =
      .errorJson "Client rate limit exceeded. Maximum 5 requests per day." := by
  have h := c2_admission_and_message 5 0 (RedisRead.val 5) (RedisRead.val 0)
    rfl rfl reqValid envClientLimited rfl rfl rfl rfl
  have h2 := h.2.1 (by decide)
  exact ⟨h2.1, h2.2.1, h2.2.2.1.mpr (by decide)⟩

/-- Claim C3: a counter read failing with anything other than the
    missing-key result rejects the request as a 500 internal error
    (distinct from the 429 rejection), with no upstream call and no
    increment; the failed read is never treated as count 0. -/
theorem c3_store_error_500 (r : HttpRequest) (env : Env)
    (hm : r.method = "POST") (hredis : env.redisOk = true)
    (herr : env.clientRead = RedisRead.err ∨ env.globalRead = RedisRead.err) :
    (Handler r env).resp = errorResponse 500 "Internal server error" ∧
    (Handler r env).resp.status = 500 ∧
    (Handler r env).resp.status ≠ 429 ∧
    (Handler r env).trace = [Event.checkLimits] := by
  have hH := handler_store_err r env hm hredis (checkRateLimit_err herr)
  exact ⟨by rw [hH], by rw [hH]; rfl, by rw [hH]; simp [errorResponse], by rw [hH]⟩

/-- Witness for C3 at a concrete erroring read. -/
theorem c3_witness :
    (Handler reqValid envStoreErr).resp = errorResponse 500 "Internal server error" ∧
    (Handler reqValid envStoreErr).resp.status = 500 ∧
    (Handler reqValid envStoreErr).resp.status ≠ 429 ∧
    (Handler reqValid envStoreErr).trace = [Event.checkLimits] :=
  c3_store_error_500 reqValid envStoreErr rfl rfl (Or.inl rfl)

/-- Counterexample to claim C4 as stated: a request whose body fails
    validation (status 400) has nevertheless already performed the
    rate-limit read of the counter store — the store read precedes body
    parsing, so validation does not precede all store interaction. -/
theorem c4_counterexample :
    (Handler reqBadBody envSuccess).resp.status = 400 ∧
    (Handler reqBadBody envSuccess).trace = [Event.checkLimits, Event.parseBody] ∧
    Event.checkLimits ∈ (Handler reqBadBody envSuccess).trace := by
  decide

/-- Claim C4 amended: body parsing and validation occur before any
    upstream interaction and before any counter-store write, but after
    the admission check — the store read happens first; the trace is
    always an initial segment of
    check, parse, upstream call, increment. -/
theorem c4_amended (r : HttpRequest) (env : Env) :
    ((Handler r env).trace = [] ∨
     (Handler r env).trace = [Event.checkLimits] ∨
     (Handler r env).trace = [Event.checkLimits, Event.parseBody] ∨
     (Handler r env).trace = [Event.checkLimits, Event.parseBody, Event.upstreamCall] ∨
     (Handler r env).trace =
       [Event.checkLimits, Event.parseBody, Event.upstreamCall, Event.incrLimits]) ∧
    (Event.upstreamCall ∈ (Handler r env).trace ∨
        Event.incrLimits ∈ (Handler r env).trace →
      ∃ req, r.decodeBody = some req ∧ req.content ≠ "") := by
  unfold Handler
  rcases hv : validateMethod r with _ | resp <;> simp only [hv]
  · rcases hg0 : getRedisClient env with _ | resp <;> simp only [hg0]
    · rcases hcr : checkRateLimits env with resp | ⟨c, g⟩ <;> simp only [hcr]
      · exact ⟨by simp, by simp⟩
      · rcases hpr : parseRequest r with resp | req <;> simp only [hpr]
        · exact ⟨by simp, by simp⟩
        · have hp := parseRequest_ok hpr
          rcases hcp : createGeminiPayload env with resp | u <;> simp only [hcp]
          · exact ⟨by simp, by simp⟩
          · rcases hec : executeGeminiCall env with ⟨resp, called⟩ | ⟨status, body⟩ <;>
              simp only [hec]
            · cases called
              · exact ⟨by simp, by simp⟩
              · exact ⟨by simp, fun _ => ⟨req, hp.1, hp.2⟩⟩
            · rcases hh : handleGeminiResponse status body with _ | resp <;> simp only [hh]
              · exact ⟨by simp, fun _ => ⟨req, hp.1, hp.2⟩⟩
              · exact ⟨by simp, fun _ => ⟨req, hp.1, hp.2⟩⟩
    · exact ⟨by simp, by simp⟩
  · exact ⟨by simp, by simp⟩

/-- Witness for C4 amended: an upstream call in the trace yields the
    validated body. -/
theorem c4_witness :
    ∃ req, reqValid.decodeBody = some req ∧ req.content ≠ "" :=
  (c4_amended reqValid envSuccess).2 (Or.inl (by decide))

/-- Claim C5: a non-200 upstream status whose body parses to the
    error envelope with code 503 and status UNAVAILABLE yields the
    normalized 503 provider-unavailable response; every other non-200
    outcome forwards the original status and body unchanged; a 200
    status proceeds as success. -/
theorem c5_upstream_classification (r : HttpRequest) (env : Env) (c g : Int)
    (req : AIExtractionRequest) (s : Nat) (b : UpBody)
    (hm : r.method = "POST") (hredis : env.redisOk = true)
    (hrc : env.clientRead = .val c) (hrg : env.globalRead = .val g)
    (hc : c < ClientRateLimitPerDay) (hg : g < GlobalRateLimitPerDay)
    (hdec : r.decodeBody = some req) (hcont : req.content ≠ "")
    (hmar : env.marshalOk = true) (hkey : env.armyAccessKey ≠ "")
    (hnr : env.newRequestOk = true)
    (hup : env.upstream = .response s (some b)) :
    (s ≠ 200 → ∀ e : GeminiError, b.envelope = some e → e.code = 503 →
      e.status = "UNAVAILABLE" →
      (Handler r env).resp = providerUnavailableResponse ∧
      (Handler r env).resp.status = 503) ∧
    (s ≠ 200 → b.envelope = none →
      (Handler r env).resp = passthroughResponse s b.raw) ∧
    (s ≠ 200 → ∀ e : GeminiError, b.envelope = some e →
      ¬(e.code = 503 ∧ e.status = "UNAVAILABLE") →
      (Handler r env).resp = passthroughResponse s b.raw) ∧
    (s = 200 → (Handler r env).resp.status = 200) := by
  have hH := handler_at_upstream r env c g req hm hredis hrc hrg hc hg hdec hcont hmar hkey hnr
  simp only [hup] at hH
  refine ⟨?_, ?_, ?_, ?_⟩
  · intro hs e he h503 hst
    have hgem : handleGeminiResponse s b = some providerUnavailableResponse := by
      simp [handleGeminiResponse, hs, he, h503, hst]
    simp only [hgem] at hH
    exact ⟨by rw [hH], by rw [hH]; rfl⟩
  · intro hs hnone
    have hgem : handleGeminiResponse s b = some (passthroughResponse s b.raw) := by
      simp [handleGeminiResponse, hs, hnone]
    simp only [hgem] at hH
    rw [hH]
  · intro hs e he hne
    have hgem : handleGeminiResponse s b = some (passthroughResponse s b.raw) := by
      simp [handleGeminiResponse, hs, he, hne]
    simp only [hgem] at hH
    rw [hH]
  · intro hs
    subst hs
    have hgem : handleGeminiResponse 200 b = none := by
      simp [handleGeminiResponse]
    simp only [hgem] at hH
    rw [hH]
    rfl

/-- Witness for C5: a 503 UNAVAILABLE envelope is normalized. -/
theorem c5_witness :
    (Handler reqValid envProvider503).resp = providerUnavailableResponse ∧
    (Handler reqValid envProvider503).resp.status = 503 := by
  have h := c5_upstream_classification reqValid envProvider503 0 0
    ⟨"note text", [], []⟩ 503 bodyUnavailable rfl rfl rfl rfl (by decide) (by decide)
    rfl (by decide) rfl (by decide) rfl rfl
  exact h.1 (by decide) ⟨503, "overloaded", "UNAVAILABLE"⟩ rfl rfl rfl

/-- Claim C6: when the upstream call succeeded, a ledger-commit failure
    does not change the caller-visible outcome — the response is the
    HTTP 200 success with the upstream body regardless of the commit
    outcome, and a failed commit leaves the store unchanged. -/
theorem c6_commit_failure_nonfatal (r : HttpRequest) (env : Env) (c g : Int)
    (req : AIExtractionRequest) (b : UpBody)
    (hm : r.method = "POST") (hredis : env.redisOk = true)
    (hrc : env.clientRead = .val c) (hrg : env.globalRead = .val g)
    (hc : c < ClientRateLimitPerDay) (hg : g < GlobalRateLimitPerDay)
    (hdec : r.decodeBody = some req) (hcont : req.content ≠ "")
    (hmar : env.marshalOk = true) (hkey : env.armyAccessKey ≠ "")
    (hnr : env.newRequestOk = true)
    (hup : env.upstream = .response 200 (some b)) :
    (Handler r env).resp = writeSuccessResponse b.raw c g ∧
    (Handler r env).resp.status = 200 ∧
    (Handler r env).resp.body = .raw b.raw ∧
    (env.incrementOk = false → (Handler r env).store = env.store) := by
  have hH := handler_at_upstream r env c g req hm hredis hrc hrg hc hg hdec hcont hmar hkey hnr
  simp only [hup] at hH
  have hgem : handleGeminiResponse 200 b = none := by
    simp [handleGeminiResponse]
  simp only [hgem] at hH
  refine ⟨by rw [hH], by rw [hH]; rfl, by rw [hH]; rfl, ?_⟩
  intro hincr
  rw [hH]
  simp [incrementLimits, hincr]

/-- Witness for C6 at a concrete request whose commit fails. -/
theorem c6_witness :
    (Handler reqValid envIncrFail).resp = writeSuccessResponse "result" 0 0 ∧
    (Handler reqValid envIncrFail).resp.status = 200 ∧
    (Handler reqValid envIncrFail).resp.body = .raw "result" ∧
    (Handler reqValid envIncrFail).store = envIncrFail.store := by
  have h := c6_commit_failure_nonfatal reqValid envIncrFail 0 0
    ⟨"note text", [], []⟩ okBody rfl rfl rfl rfl (by decide) (by decide)
    rfl (by decide) rfl (by decide) rfl rfl
  exact ⟨h.1, h.2.1, h.2.2.1, h.2.2.2 rfl⟩

/-- Claim C10: an upstream reply whose status arrived (even 200) but
    whose body cannot be read yields HTTP 500 with the message
    "Failed to read AI response" and no counter increment. -/
theorem c10_body_read_failure (r : HttpRequest) (env : Env) (c g : Int)
    (req : AIExtractionRequest) (s : Nat)
    (hm : r.method = "POST") (hredis : env.redisOk = true)
    (hrc : env.clientRead = .val c) (hrg : env.globalRead = .val g)
    (hc : c < ClientRateLimitPerDay) (hg : g < GlobalRateLimitPerDay)
    (hdec : r.decodeBody = some req) (hcont : req.content ≠ "")
    (hmar : env.marshalOk = true) (hkey : env.armyAccessKey ≠ "")
    (hnr : env.newRequestOk = true)
    (hup : env.upstream = .response s none) :
    (Handler r env).resp = errorResponse 500 "Failed to read AI response" ∧
    Event.incrLimits ∉ (Handler r env).trace ∧
    (Handler r env).store = env.store := by
  have hH := handler_at_upstream r env c g req hm hredis hrc hrg hc hg hdec hcont hmar hkey hnr
  simp only [hup] at hH
  exact ⟨by rw [hH], by rw [hH]; simp, by rw [hH]⟩

/-- Witness for C10 with a 200 status and an unreadable body. -/
theorem c10_witness :
    (Handler reqValid envReadFail).resp = errorResponse 500 "Failed to read AI response" ∧
    Event.incrLimits ∉ (Handler reqValid envReadFail).trace ∧
    (Handler reqValid envReadFail).store = envReadFail.store :=
  c10_body_read_failure reqValid envReadFail 0 0 ⟨"note text", [], []⟩ 200
    rfl rfl rfl rfl (by decide) (by decide) rfl (by decide) rfl (by decide) rfl rfl

/-- Counterexample to claim C8 as stated: for the malformed connection
    address "abc:def" (no forwarding headers), the claim's reading —
    strip only a trailing port suffix, return a malformed address as-is
    — yields "abc:def", but the code strips at the last colon and
    returns "abc". -/
theorem c8_counterexample :
    GetClientIP reqMalformedAddr = "abc" ∧
    stripPortClaimed reqMalformedAddr.remoteAddr = "abc:def" ∧
    GetClientIP reqMalformedAddr ≠ stripPortClaimed reqMalformedAddr.remoteAddr := by
  decide

/-- Claim C8 amended: the resolver is total and deterministic with the
    claimed precedence (X-Forwarded-For first entry trimmed, then
    X-Real-IP, then RemoteAddr); the fallback strips everything from
    the last colon on whenever a colon is present — even when the
    suffix is not a port — and returns the address unchanged only when
    it contains no colon. -/
theorem c8_amended (r : HttpRequest) :
    (r.xForwardedFor ≠ "" →
      GetClientIP r = ((r.xForwardedFor.splitOn ",").headD "").trim) ∧
    (r.xForwardedFor = "" → r.xRealIP ≠ "" → GetClientIP r = r.xRealIP) ∧
    (r.xForwardedFor = "" → r.xRealIP = "" → ':' ∉ r.remoteAddr.toList →
      GetClientIP r = r.remoteAddr) ∧
    (∀ l1 l2 : List Char, r.xForwardedFor = "" → r.xRealIP = "" →
      r.remoteAddr.toList = l1 ++ ':' :: l2 → ':' ∉ l2 →
      GetClientIP r = l1.asString) := by
  refine ⟨?_, ?_, ?_, ?_⟩
  · intro hxff
    unfold GetClientIP
    simp [hxff]
  · intro hxff hxri
    unfold GetClientIP
    simp [hxff, hxri]
  · intro hxff hxri hnc
    unfold GetClientIP
    simp only [hxff, hxri]
    rw [lastIndexOfColon_of_not_mem hnc]
    simp
  · intro l1 l2 hxff hxri hlist hnc
    unfold GetClientIP
    simp only [hxff, hxri]
    rw [hlist, lastIndexOfColon_append hnc]
    simp [List.take_left]

/-- Witness for C8 amended at the concrete address 10.0.0.1:443. -/
theorem c8_witness :
    GetClientIP reqValid = ("10.0.0.1".toList).asString :=
  (c8_amended reqValid).2.2.2 "10.0.0.1".toList "443".toList rfl rfl (by decide) (by decide)

/-- Counterexample to claim C9 as stated: after a first commit at
    instant 100 and a second at instant 5000, the key's expiry is
    5000 + 24h — 24 hours after the most recent increment, not 24 hours
    after the first increment (100 + 24h), because every commit resets
    the TTL. -/
theorem c9_counterexample :
    storeAfterFirst.expireAt (clientKeyOf "1.2.3.4" "2026-10-11") =
      some (100 + RateLimitTTL) ∧
    storeAfterSecond.count (clientKeyOf "1.2.3.4" "2026-10-11") = some 2 ∧
    storeAfterSecond.expireAt (clientKeyOf "1.2.3.4" "2026-10-11") =
      some (5000 + RateLimitTTL) ∧
    (5000 + RateLimitTTL : Nat) ≠ 100 + RateLimitTTL := by
  decide

/-- Claim C9 amended: a scope/day key is created with count 1 on the
    first increment of the day, and every ledger commit sets a fresh
    24-hour expiry on both the client-scope and global-scope keys — so
    a key expires 24 hours after its most recent increment, not its
    first. -/
theorem c9_amended (s : Store) (ip today : String) (now : Nat)
    (hne : clientKeyOf ip today ≠ globalKeyOf today)
    (hcnone : s.count (clientKeyOf ip today) = none)
    (hgnone : s.count (globalKeyOf today) = none) :
    (IncrementRateLimit s ip today now).count (clientKeyOf ip today) = some 1 ∧
    (IncrementRateLimit s ip today now).count (globalKeyOf today) = some 1 ∧
    (∀ (s2 : Store) (t2 : Nat),
      (IncrementRateLimit s2 ip today t2).expireAt (clientKeyOf ip today) =
        some (t2 + RateLimitTTL) ∧
      (IncrementRateLimit s2 ip today t2).expireAt (globalKeyOf today) =
        some (t2 + RateLimitTTL)) := by
  refine ⟨?_, ?_, ?_⟩
  · simp [IncrementRateLimit, storeIncr, storeExpire, hne, hcnone]
  · simp [IncrementRateLimit, storeIncr, storeExpire, Ne.symm hne, hgnone]
  · intro s2 t2
    constructor
    · simp [IncrementRateLimit, storeIncr, storeExpire, hne]
    · simp [IncrementRateLimit, storeIncr, storeExpire]

/-- Witness for C9 amended at a concrete first commit. -/
theorem c9_witness :
    (IncrementRateLimit emptyStore "1.2.3.4" "2026-10-11" 100).count
      (clientKeyOf "1.2.3.4" "2026-10-11") = some 1 ∧
    (IncrementRateLimit emptyStore "1.2.3.4" "2026-10-11" 100).expireAt
      (clientKeyOf "1.2.3.4" "2026-10-11") = some (100 + RateLimitTTL) := by
  have h := c9_amended emptyStore "1.2.3.4" "2026-10-11" 100 (by decide) rfl rfl
  exact ⟨h.1, (h.2.2 emptyStore 100).1⟩

end Swipenotes
